import Mathlib

/-!
Verification development for the `console-subscriber` aggregator
(`console-subscriber/src/aggregator.rs`).

Shallow-embedding conventions:

* `span::Id` and `proto::MetaId` are `Nat`; `SystemTime` is a `Nat` count of
  nanoseconds; `Duration` is a `Nat` count of nanoseconds.
* `u64` arithmetic that the source performs with plain `+`/`-` (which wraps in
  release builds) is modelled with an explicit wrap modulo `2 ^ 64` wherever an
  out-of-range result is reachable: the `current_polls` increment/decrement and
  the numeric attribute `Add`/`Sub` updates.  Monotone event counters
  (`polls`, `wakes`, `waker_clones`, `waker_drops`) count processed events and
  are modelled as plain `Nat` increments.
* An explicit Rust panic (`panic!`, `.unwrap()` on an `Err`) is modelled by
  `Option`: `none` means the aggregator task aborts.  `SystemTime::duration_since`
  returns `Err` when the argument is later than the receiver, so
  `at.duration_since(t).unwrap()` is `none` exactly when `at < t`; the
  `unwrap_or_default()` call sites are the saturating `Nat` subtraction.
* The HDR histogram is modelled as the list of recorded samples, each already
  clamped by `.try_into().unwrap_or(u64::MAX)`; `Histogram::record` on an
  auto-resizing histogram never fails, so recording is a plain append.
* A `HashMap` is modelled as an association list with unique keys; insertion
  replaces any existing binding.  The metadata pointer that `Event::ResourceOp`
  reinterprets as an id (`metadata as *const _ as u64`) is modelled by the
  metadata token itself.
* Channels, watcher queues and the flush signal are I/O collaborators; the
  functions below embed the state transformations the aggregator performs on
  its tables (`update_state`, `publish`, `add_instrument_subscription`,
  `drop_closed`, `cleanup_closed`) together with the messages they build.
-/

namespace Agg

/-- `2 ^ 64`, the number of values of `u64`. -/
def U64 : Nat := 2 ^ 64

/-- Wrapping `u64` addition (release-build semantics of `+`). -/
def wadd (a b : Nat) : Nat := (a + b) % U64

/-- Wrapping `u64` subtraction (release-build semantics of `-`). -/
def wsub (a b : Nat) : Nat := (a + (U64 - b % U64)) % U64

/-- `PollStats` from aggregator.rs. -/
structure PollStats where
  current_polls : Nat
  polls : Nat
  first_poll : Option Nat
  last_poll_started : Option Nat
  last_poll_ended : Option Nat
  busy_time : Nat

deriving instance DecidableEq, Repr for PollStats

/-- `impl Default for PollStats`. -/
def PollStats.initial : PollStats :=
  { current_polls := 0, polls := 0, first_poll := none, last_poll_started := none
    last_poll_ended := none, busy_time := 0 }

/-- `TaskStats` from aggregator.rs; the histogram is the list of recorded samples. -/
structure TaskStats where
  created_at : Option Nat
  closed_at : Option Nat
  wakes : Nat
  waker_clones : Nat
  waker_drops : Nat
  last_wake : Option Nat
  poll_times_histogram : List Nat
  poll_stats : PollStats

deriving instance DecidableEq, Repr for TaskStats

/-- `impl Default for TaskStats` (`Histogram::new(2)` starts empty). -/
def TaskStats.initial : TaskStats :=
  { created_at := none, closed_at := none, wakes := 0, waker_clones := 0
    waker_drops := 0, last_wake := none, poll_times_histogram := []
    poll_stats := PollStats.initial }

/-- `Task` static data (the field list is an opaque token). -/
structure Task where
  id : Nat
  metadata : Nat
  fields : Nat

deriving instance DecidableEq, Repr for Task

/-- `AttrValue` from aggregator.rs. -/
inductive AttrValue where
  | text (s : String)
  | numeric (val : Nat) (unit : String)

deriving instance DecidableEq, Repr for AttrValue

/-- `ResourceStats` from aggregator.rs (`attributes` is an association list). -/
structure ResourceStats where
  created_at : Option Nat
  closed_at : Option Nat
  attributes : List (String × AttrValue)

deriving instance DecidableEq, Repr for ResourceStats

/-- `impl Default for ResourceStats` (derived). -/
def ResourceStats.initial : ResourceStats :=
  { created_at := none, closed_at := none, attributes := [] }

/-- `Resource` static data. -/
structure Resource where
  id : Nat
  metadata : Nat
  concrete_type : String
  kind : String

deriving instance DecidableEq, Repr for Resource

/-- `AsyncOp` static data. -/
structure AsyncOp where
  id : Nat
  metadata : Nat
  source : String

deriving instance DecidableEq, Repr for AsyncOp

/-- `AsyncOpStats` from aggregator.rs. -/
structure AsyncOpStats where
  created_at : Option Nat
  closed_at : Option Nat
  latest_poll_op : Option Nat
  resource_id : Option Nat
  task_id : Option Nat
  poll_stats : PollStats

deriving instance DecidableEq, Repr for AsyncOpStats

/-- `impl Default for AsyncOpStats` (derived). -/
def AsyncOpStats.initial : AsyncOpStats :=
  { created_at := none, closed_at := none, latest_poll_op := none
    resource_id := none, task_id := none, poll_stats := PollStats.initial }

instance : Inhabited AsyncOpStats := ⟨AsyncOpStats.initial⟩

/-- `AttributeUpdateOp` (crate-level event type). -/
inductive AttributeUpdateOp where
  | add
  | sub
  | ovr

deriving instance DecidableEq, Repr for AttributeUpdateOp

/-- `AttributeUpdateValue` (crate-level event type). -/
inductive AttributeUpdateValue where
  | text (s : String)
  | numeric (val : Nat) (op : AttributeUpdateOp) (unit : String)

deriving instance DecidableEq, Repr for AttributeUpdateValue

/-- `AttributeUpdate` (crate-level event type). -/
structure AttributeUpdate where
  name : String
  val : AttributeUpdateValue

deriving instance DecidableEq, Repr for AttributeUpdate

/-- `Readiness` (crate-level event type). -/
inductive Readiness where
  | pending
  | ready

deriving instance DecidableEq, Repr for Readiness

/-- `OpType` (crate-level event type). -/
inductive OpType where
  | stateUpdate (updates : List AttributeUpdate)
  | poll (async_op_id : Nat) (task_id : Nat) (readiness : Readiness)

deriving instance DecidableEq, Repr for OpType

/-- `ResourceOp` from aggregator.rs. -/
structure ResourceOp where
  id : Nat
  metadata : Nat
  resource_id : Nat
  op_name : String
  op_type : OpType

deriving instance DecidableEq, Repr for ResourceOp

/-- `WakeOp` (crate-level event type). -/
inductive WakeOp where
  | wake
  | wakeByRef
  | clone
  | drop

deriving instance DecidableEq, Repr for WakeOp

/-- `Event` (crate-level event type), fields in source order with `at` as `t`. -/
inductive Event where
  | metadata (meta : Nat)
  | spawn (id : Nat) (metadata : Nat) (t : Nat) (fields : Nat)
  | enter (id : Nat) (t : Nat)
  | exit (id : Nat) (t : Nat)
  | close (id : Nat) (t : Nat)
  | waker (id : Nat) (op : WakeOp) (t : Nat)
  | resource (id : Nat) (metadata : Nat) (kind : String) (concrete_type : String) (t : Nat)
  | resourceOp (metadata : Nat) (t : Nat) (resource_id : Nat) (op_name : String)
      (op_type : OpType)
  | asyncResourceOp (id : Nat) (metadata : Nat) (source : String) (t : Nat)

deriving instance DecidableEq, Repr for Event

/-- `IdData<T>`: a map from id to `(T, dirty_bit)`, as an association list. -/
structure IdData (T : Type) where
  data : List (Nat × T × Bool)

deriving instance DecidableEq, Repr for IdData

namespace IdData

variable {T : Type}

/-- `IdData::insert`: store `(value, dirty = true)`, replacing any old binding. -/
def insert (m : IdData T) (id : Nat) (v : T) : IdData T :=
  ⟨(id, v, true) :: m.data.filter fun e => e.1 != id⟩

/-- `IdData::get`: read-only lookup that does not touch the dirty bit. -/
def get (m : IdData T) (id : Nat) : Option T :=
  (m.data.find? fun e => e.1 == id).map fun e => e.2.1

/-- `contains_key`. -/
def containsKey (m : IdData T) (id : Nat) : Bool :=
  m.data.any fun e => e.1 == id

/-- `IdData::update`: mutate the entry if present; dropping the `Updating`
handle always sets the dirty bit.  Absent ids are untouched. -/
def update (m : IdData T) (id : Nat) (f : T → T) : IdData T :=
  ⟨m.data.map fun e => if e.1 = id then (e.1, f e.2.1, true) else e⟩

/-- `IdData::update` with a mutation that can panic (`none` aborts the task). -/
def updateF (m : IdData T) (id : Nat) (f : T → Option T) : Option (IdData T) :=
  match m.get id with
  | none => some m
  | some v =>
    (f v).map fun v' => ⟨m.data.map fun e => if e.1 = id then (e.1, v', true) else e⟩

/-- `IdData::update_or_default`: `entry(id).or_default()` then mutate; the
handle marks the (possibly fresh) row dirty on release. -/
def updateOrDefault [Inhabited T] (m : IdData T) (id : Nat) (f : T → T) : IdData T :=
  if m.containsKey id then m.update id f
  else ⟨(id, f default, true) :: m.data⟩

/-- `IdData::since_last_update`: the dirty entries, and the table with every
dirty bit cleared by the iteration. -/
def since_last_update (m : IdData T) : List (Nat × T) × IdData T :=
  (m.data.filterMap fun e => if e.2.2 then some (e.1, e.2.1) else none,
   ⟨m.data.map fun e => (e.1, e.2.1, false)⟩)

/-- `IdData::all`. -/
def all (m : IdData T) : List (Nat × T) :=
  m.data.map fun e => (e.1, e.2.1)

/-- `IdData::as_proto`: the delta (dirty only, clearing bits) or the full set.
Wire rendering is abstracted to the entry itself. -/
def as_proto (m : IdData T) (updatedOnly : Bool) : List (Nat × T) × IdData T :=
  if updatedOnly then m.since_last_update
  else (m.all, m)

/-- Every dirty bit in the table is clear. -/
def dirtyFree (m : IdData T) : Prop :=
  ∀ e ∈ m.data, e.2.2 = false

end IdData

/-- The `Closable` trait. -/
class Closable (R : Type) where
  closedAt : R → Option Nat

instance : Closable TaskStats := ⟨fun s => s.closed_at⟩

instance : Closable ResourceStats := ⟨fun s => s.closed_at⟩

instance : Closable AsyncOpStats := ⟨fun s => s.closed_at⟩

/-- The aggregator state: metadata lists, the seven entity tables, and the
`retention` configuration.  Channels, watcher queues and timers are external
collaborators and are passed to the functions that consult them. -/
structure Aggregator where
  all_metadata : List Nat
  new_metadata : List Nat
  tasks : IdData Task
  task_stats : IdData TaskStats
  resources : IdData Resource
  resource_stats : IdData ResourceStats
  async_ops : IdData AsyncOp
  async_op_stats : IdData AsyncOpStats
  resource_ops : IdData ResourceOp
  retention : Nat

deriving instance DecidableEq, Repr for Aggregator

/-- `Aggregator::new` with retention `r`: every table empty. -/
def Aggregator.empty (r : Nat) : Aggregator :=
  { all_metadata := [], new_metadata := []
    tasks := ⟨[]⟩, task_stats := ⟨[]⟩
    resources := ⟨[]⟩, resource_stats := ⟨[]⟩
    async_ops := ⟨[]⟩, async_op_stats := ⟨[]⟩
    resource_ops := ⟨[]⟩, retention := r }

/-- The `Event::Enter` body shared by `task_stats` and `async_op_stats`. -/
def PollStats.applyEnter (t : Nat) (p : PollStats) : PollStats :=
  if p.current_polls = 0 then
    { p with
      last_poll_started := some t
      first_poll := match p.first_poll with | none => some t | some x => some x
      polls := p.polls + 1
      current_polls := wadd p.current_polls 1 }
  else { p with current_polls := wadd p.current_polls 1 }

/-- The `Event::Exit` body shared by `task_stats` and `async_op_stats`:
`current_polls -= 1` wraps on underflow; when the decrement reaches zero and
`last_poll_started` is set, `at.duration_since(last_poll_started).unwrap()`
panics (`none`) if `t < last_poll_started` and otherwise yields the elapsed
time, which is also returned for the task histogram. -/
def PollStats.applyExitCore (t : Nat) (p : PollStats) : Option (PollStats × Option Nat) :=
  let cp := wsub p.current_polls 1
  if cp = 0 then
    match p.last_poll_started with
    | some lps =>
      if lps ≤ t then
        some ({ p with current_polls := cp, last_poll_ended := some t
                       busy_time := p.busy_time + (t - lps) }, some (t - lps))
      else none
    | none => some ({ p with current_polls := cp }, none)
  else some ({ p with current_polls := cp }, none)

/-- The task half of `Event::Exit`: on an outermost exit the elapsed time is
recorded into the histogram, clamped to `u64::MAX` by
`.try_into().unwrap_or(u64::MAX)`. -/
def TaskStats.applyExit (t : Nat) (v : TaskStats) : Option TaskStats :=
  (PollStats.applyExitCore t v.poll_stats).map fun r =>
    { v with
      poll_stats := r.1
      poll_times_histogram :=
        match r.2 with
        | some elapsed => v.poll_times_histogram ++ [min elapsed (U64 - 1)]
        | none => v.poll_times_histogram }

/-- The async-op half of `Event::Exit` (no histogram). -/
def AsyncOpStats.applyExit (t : Nat) (a : AsyncOpStats) : Option AsyncOpStats :=
  (PollStats.applyExitCore t a.poll_stats).map fun r => { a with poll_stats := r.1 }

/-- The `Event::Waker` body. -/
def TaskStats.applyWaker (op : WakeOp) (t : Nat) (v : TaskStats) : TaskStats :=
  match op with
  | WakeOp.wake =>
    { v with wakes := v.wakes + 1, last_wake := some t, waker_drops := v.waker_drops + 1 }
  | WakeOp.wakeByRef => { v with wakes := v.wakes + 1, last_wake := some t }
  | WakeOp.clone => { v with waker_clones := v.waker_clones + 1 }
  | WakeOp.drop => { v with waker_drops := v.waker_drops + 1 }

/-- `AttrValue::update`: in-place update of a stored attribute.  The catch-all
arm is `panic!("trying to update attributes of different type")`, modelled as
`none`.  Numeric `Add`/`Sub` wrap (release semantics); the update's unit is
ignored for an existing attribute. -/
def AttrValue.update : AttrValue → AttributeUpdateValue → Option AttrValue
  | AttrValue.text _, AttributeUpdateValue.text upd => some (AttrValue.text upd)
  | AttrValue.numeric val unit, AttributeUpdateValue.numeric upd op _ =>
    some (AttrValue.numeric
      (match op with
       | AttributeUpdateOp.add => wadd val upd
       | AttributeUpdateOp.ovr => upd
       | AttributeUpdateOp.sub => wsub val upd) unit)
  | _, _ => none

/-- `impl From<AttributeUpdateValue> for AttrValue`. -/
def AttrValue.ofUpdate : AttributeUpdateValue → AttrValue
  | AttributeUpdateValue.text s => AttrValue.text s
  | AttributeUpdateValue.numeric val _ unit => AttrValue.numeric val unit

/-- The `OpType::StateUpdate` loop over attribute updates: update in place when
the name is present (which can panic), otherwise insert the derived value. -/
def ResourceStats.applyAttrUpdates : List AttributeUpdate → ResourceStats → Option ResourceStats
  | [], rs => some rs
  | upd :: rest, rs =>
    match (rs.attributes.find? fun e => e.1 == upd.name).map (fun e => e.2) with
    | some attr =>
      match attr.update upd.val with
      | some attr' =>
        ResourceStats.applyAttrUpdates rest
          { rs with attributes :=
              rs.attributes.map fun e => if e.1 = upd.name then (e.1, attr') else e }
      | none => none
    | none =>
      ResourceStats.applyAttrUpdates rest
        { rs with attributes := (upd.name, AttrValue.ofUpdate upd.val) :: rs.attributes }

/-- The `OpType::Poll` body applied through `update_or_default`. -/
def AsyncOpStats.applyPollOp (metadata t task_id resource_id : Nat) (readiness : Readiness)
    (a : AsyncOpStats) : AsyncOpStats :=
  let a := { a with
    poll_stats := { a.poll_stats with polls := a.poll_stats.polls + 1 }
    latest_poll_op := some metadata }
  let a := match a.task_id with
    | none => { a with task_id := some task_id }
    | some _ => a
  let a := match a.resource_id with
    | none => { a with resource_id := some resource_id }
    | some _ => a
  match readiness with
  | Readiness.pending =>
    match a.poll_stats.first_poll with
    | none => { a with poll_stats := { a.poll_stats with first_poll := some t } }
    | some _ => a
  | Readiness.ready => a

/-- `Aggregator::update_state`: apply a single event to the tables.  `none`
means the aggregator task panicked while processing the event. -/
def update_state (ev : Event) (s : Aggregator) : Option Aggregator :=
  match ev with
  | Event.metadata meta =>
    some { s with all_metadata := s.all_metadata ++ [meta]
                  new_metadata := s.new_metadata ++ [meta] }
  | Event.spawn id metadata t fields =>
    some { s with
      tasks := s.tasks.insert id { id := id, metadata := metadata, fields := fields }
      task_stats := s.task_stats.insert id { TaskStats.initial with created_at := some t } }
  | Event.enter id t =>
    some { s with
      task_stats := s.task_stats.update id fun v =>
        { v with poll_stats := v.poll_stats.applyEnter t }
      async_op_stats := s.async_op_stats.update id fun a =>
        { a with poll_stats := a.poll_stats.applyEnter t } }
  | Event.exit id t =>
    match s.task_stats.updateF id (TaskStats.applyExit t) with
    | none => none
    | some tstats =>
      match s.async_op_stats.updateF id (AsyncOpStats.applyExit t) with
      | none => none
      | some astats => some { s with task_stats := tstats, async_op_stats := astats }
  | Event.close id t =>
    some { s with
      task_stats := s.task_stats.update id fun v => { v with closed_at := some t }
      resource_stats := s.resource_stats.update id fun v => { v with closed_at := some t }
      async_op_stats := s.async_op_stats.update id fun v => { v with closed_at := some t } }
  | Event.waker id op t =>
    some { s with task_stats := s.task_stats.update id (TaskStats.applyWaker op t) }
  | Event.resource id metadata kind concrete_type t =>
    some { s with
      resources := s.resources.insert id
        { id := id, metadata := metadata, concrete_type := concrete_type, kind := kind }
      resource_stats := s.resource_stats.insert id
        { ResourceStats.initial with created_at := some t } }
  | Event.resourceOp metadata t resource_id op_name op_type =>
    let afterOp : Option Aggregator :=
      match op_type with
      | OpType.stateUpdate attr_updates =>
        (s.resource_stats.updateF resource_id
          (ResourceStats.applyAttrUpdates attr_updates)).map fun rs =>
            { s with resource_stats := rs }
      | OpType.poll async_op_id task_id readiness =>
        let astats := s.async_op_stats.updateOrDefault async_op_id
          (AsyncOpStats.applyPollOp metadata t task_id resource_id readiness)
        some { s with async_op_stats := astats }
    afterOp.map fun s' =>
      let op : ResourceOp :=
        { id := metadata, metadata := metadata, resource_id := resource_id
          op_name := op_name, op_type := op_type }
      { s' with resource_ops := s'.resource_ops.insert metadata op }
  | Event.asyncResourceOp id metadata source t =>
    some { s with
      async_ops := s.async_ops.insert id { id := id, metadata := metadata, source := source }
      async_op_stats := s.async_op_stats.insert id
        { AsyncOpStats.initial with created_at := some t } }

/-- The event-drain loop: apply events in order, stopping at the first panic. -/
def reduce : List Event → Aggregator → Option Aggregator
  | [], s => some s
  | ev :: rest, s =>
    match update_state ev s with
    | some s' => reduce rest s'
    | none => none

/-- `proto::tasks::TaskUpdate` (wire rendering abstracted to the entries). -/
structure TaskUpdate where
  new_tasks : List Task
  stats_update : List (Nat × TaskStats)

deriving instance DecidableEq, Repr for TaskUpdate

/-- `proto::resources::ResourceUpdate`. -/
structure ResourceUpdate where
  new_resources : List Resource
  stats_update : List (Nat × ResourceStats)

deriving instance DecidableEq, Repr for ResourceUpdate

/-- `proto::async_ops::AsyncOpUpdate`. -/
structure AsyncOpUpdate where
  new_async_ops : List AsyncOp
  stats_update : List (Nat × AsyncOpStats)

deriving instance DecidableEq, Repr for AsyncOpUpdate

/-- `proto::resource_ops::ResourceOpUpdate`. -/
structure ResourceOpUpdate where
  new_resource_ops : List ResourceOp

deriving instance DecidableEq, Repr for ResourceOpUpdate

/-- `proto::instrument::InstrumentUpdate`. -/
structure InstrumentUpdate where
  now : Nat
  new_metadata : Option (List Nat)
  task_update : TaskUpdate
  resource_update : ResourceUpdate
  async_op_update : AsyncOpUpdate
  resource_op_update : ResourceOpUpdate

deriving instance DecidableEq, Repr for InstrumentUpdate

/-- `Aggregator::add_instrument_subscription`: build the initial snapshot with
`as_proto(false)` on every table (and the complete `all_metadata`), returning
the message and the aggregator state afterwards.  Whether the watcher is kept
depends only on the non-blocking send, an I/O step outside the embedding. -/
def add_instrument_subscription (now : Nat) (s : Aggregator) :
    InstrumentUpdate × Aggregator :=
  let tasksP := s.tasks.as_proto false
  let taskStatsP := s.task_stats.as_proto false
  let resourcesP := s.resources.as_proto false
  let resourceStatsP := s.resource_stats.as_proto false
  let asyncOpsP := s.async_ops.as_proto false
  let asyncOpStatsP := s.async_op_stats.as_proto false
  let resourceOpsP := s.resource_ops.as_proto false
  let update : InstrumentUpdate :=
    { now := now
      new_metadata := some s.all_metadata
      task_update := { new_tasks := tasksP.1.map fun e => e.2
                       stats_update := taskStatsP.1 }
      resource_update := { new_resources := resourcesP.1.map fun e => e.2
                           stats_update := resourceStatsP.1 }
      async_op_update := { new_async_ops := asyncOpsP.1.map fun e => e.2
                           stats_update := asyncOpStatsP.1 }
      resource_op_update := { new_resource_ops := resourceOpsP.1.map fun e => e.2 } }
  (update,
   { s with tasks := tasksP.2, task_stats := taskStatsP.2
            resources := resourcesP.2, resource_stats := resourceStatsP.2
            async_ops := asyncOpsP.2, async_op_stats := asyncOpStatsP.2
            resource_ops := resourceOpsP.2 })

/-- `Aggregator::publish`: take `new_metadata`, build the delta update with
`as_proto(true)` on every table, and return the message together with the
aggregator state afterwards.  Watcher retention is the non-blocking send, an
I/O step outside the embedding. -/
def publish (now : Nat) (s : Aggregator) : InstrumentUpdate × Aggregator :=
  let newMeta : Option (List Nat) :=
    if s.new_metadata.isEmpty then none else some s.new_metadata
  let tasksP := s.tasks.as_proto true
  let taskStatsP := s.task_stats.as_proto true
  let resourcesP := s.resources.as_proto true
  let resourceStatsP := s.resource_stats.as_proto true
  let asyncOpsP := s.async_ops.as_proto true
  let asyncOpStatsP := s.async_op_stats.as_proto true
  let resourceOpsP := s.resource_ops.as_proto true
  let update : InstrumentUpdate :=
    { now := now
      new_metadata := newMeta
      task_update := { new_tasks := tasksP.1.map fun e => e.2
                       stats_update := taskStatsP.1 }
      resource_update := { new_resources := resourcesP.1.map fun e => e.2
                           stats_update := resourceStatsP.1 }
      async_op_update := { new_async_ops := asyncOpsP.1.map fun e => e.2
                           stats_update := asyncOpStatsP.1 }
      resource_op_update := { new_resource_ops := resourceOpsP.1.map fun e => e.2 } }
  (update,
   { s with new_metadata := []
            tasks := tasksP.2, task_stats := taskStatsP.2
            resources := resourcesP.2, resource_stats := resourceStatsP.2
            async_ops := asyncOpsP.2, async_op_stats := asyncOpStatsP.2
            resource_ops := resourceOpsP.2 })

/-- The stats half of `drop_closed`: `stats.data.retain(..)`.  A row with
`closed_at` set is kept unless `(dirty && has_watchers) || closed_for > retention`,
where `closed_for = now.duration_since(closed).unwrap_or_default()` is the
saturating difference; a row with `closed_at` unset is always kept. -/
def drop_closed_stats {R : Type} [Closable R] (now : Nat) (stats : IdData R)
    (retention : Nat) (has_watchers : Bool) : IdData R :=
  ⟨stats.data.filter fun e =>
    match Closable.closedAt e.2.1 with
    | some closed =>
      let closed_for := now - closed
      let should_drop := (e.2.2 && has_watchers) || decide (closed_for > retention)
      !should_drop
    | none => true⟩

/-- `drop_closed`: prune the stats table, then drop every identity row whose id
no longer has a stats row. -/
def drop_closed {T R : Type} [Closable R] (now : Nat) (entities : IdData T)
    (stats : IdData R) (retention : Nat) (has_watchers : Bool) :
    IdData T × IdData R :=
  let stats' := drop_closed_stats now stats retention has_watchers
  (⟨entities.data.filter fun e => stats'.data.any fun r => r.1 == e.1⟩, stats')

/-- `Aggregator::cleanup_closed`: run `drop_closed` on the three
(entity, stats) pairs; `resource_ops` is not touched. -/
def cleanup_closed (now : Nat) (has_watchers : Bool) (s : Aggregator) : Aggregator :=
  let t := drop_closed now s.tasks s.task_stats s.retention has_watchers
  let r := drop_closed now s.resources s.resource_stats s.retention has_watchers
  let a := drop_closed now s.async_ops s.async_op_stats s.retention has_watchers
  { s with tasks := t.1, task_stats := t.2
           resources := r.1, resource_stats := r.2
           async_ops := a.1, async_op_stats := a.2 }

/-! ### Helper lemmas about the entity table -/

/-- Looking up `id` after `update id f` yields the mutated entry. -/
theorem find_map_update {T : Type} (l : List (Nat × T × Bool)) (id : Nat) (f : T → T) :
    ((l.map fun e => if e.1 = id then (e.1, f e.2.1, true) else e).find?
        (fun e => e.1 == id)).map (fun e => e.2.1)
      = ((l.find? fun e => e.1 == id).map fun e => e.2.1).map f := by
  induction l with
  | nil => rfl
  | cons e rest ih =>
    by_cases h : e.1 = id
    · rw [List.map_cons, List.find?_cons_of_pos, List.find?_cons_of_pos]
      · simp [h]
      · simpa using h
      · simp [h]
    · rw [List.map_cons, List.find?_cons_of_neg, List.find?_cons_of_neg]
      · exact ih
      · simpa using h
      · simp [h]

/-- `IdData.get` after `IdData.update` at the same id. -/
theorem IdData.get_update {T : Type} (m : IdData T) (id : Nat) (f : T → T) :
    (m.update id f).get id = (m.get id).map f :=
  find_map_update m.data id f

/-- Every dirty bit is clear after `since_last_update`. -/
theorem IdData.dirtyFree_since_last_update {T : Type} (m : IdData T) :
    m.since_last_update.2.dirtyFree := by
  intro e he
  simp only [IdData.since_last_update, List.mem_map] at he
  obtain ⟨a, _, rfl⟩ := he
  rfl

/-! ### Claim theorems -/

/-- Claim C1: the retention pass evaluated on a closed task-stats row that is
dirty, with a watcher present and well inside the retention window
(`closed_at = 100`, `now = 150`, `retention = 1000`).  The claim (and the
comment inside `drop_closed`) say such a row is retained until its terminal
state is delivered, but the code computes
`should_drop = (dirty && has_watchers) || closed_for > retention` and drops it
(together with its identity row), while the same row with a clear dirty bit is
retained — the opposite of the claimed condition. -/
theorem drop_closed_drops_dirty_watched_row :
    (drop_closed 150 (⟨[(1, ⟨1, 10, 0⟩, false)]⟩ : IdData Task)
        (⟨[(1, { TaskStats.initial with closed_at := some 100 }, true)]⟩ : IdData TaskStats)
        1000 true).2.data = []
    ∧ (drop_closed 150 (⟨[(1, ⟨1, 10, 0⟩, false)]⟩ : IdData Task)
        (⟨[(1, { TaskStats.initial with closed_at := some 100 }, true)]⟩ : IdData TaskStats)
        1000 true).1.data = []
    ∧ ((drop_closed 150 (⟨[(1, ⟨1, 10, 0⟩, false)]⟩ : IdData Task)
        (⟨[(1, { TaskStats.initial with closed_at := some 100 }, false)]⟩ : IdData TaskStats)
        1000 true).2.get 1).isSome = true :=
  ⟨rfl, rfl, rfl⟩

/-- Claim C2: an `Exit` event for a task whose `current_polls` is already `0`
does not leave the field untouched: the unguarded `current_polls -= 1` wraps to
`2 ^ 64 - 1` under release semantics (and panics under debug assertions). -/
theorem exit_on_zero_polls_wraps_current_polls :
    ((reduce [Event.spawn 1 10 100 0, Event.exit 1 200] (Aggregator.empty 60)).bind
        fun s => (s.task_stats.get 1).map fun v => v.poll_stats.current_polls)
      = some (U64 - 1)
    ∧ U64 - 1 ≠ 0 :=
  ⟨rfl, by decide⟩

/-- Claim C2, amended: an `Exit` event at `current_polls = 0` decrements
unconditionally — in release builds it does not crash and every field other
than `current_polls` is untouched, but `current_polls` itself wraps to
`2 ^ 64 - 1` (debug builds panic on the underflow). -/
theorem exit_on_zero_polls_amended (v : TaskStats) (t : Nat)
    (h0 : v.poll_stats.current_polls = 0) :
    TaskStats.applyExit t v =
      some { v with poll_stats := { v.poll_stats with current_polls := U64 - 1 } } := by
  unfold TaskStats.applyExit PollStats.applyExitCore
  rw [h0]
  have h1 : wsub 0 1 = U64 - 1 := by decide
  have h3 : ¬(U64 - 1 = 0) := by decide
  simp [h1, h3]

/-- Witness for `exit_on_zero_polls_amended` on a fresh task-stats row. -/
theorem exit_on_zero_polls_amended_witness :
    TaskStats.applyExit 5 TaskStats.initial = some { TaskStats.initial with
      poll_stats := { TaskStats.initial.poll_stats with current_polls := U64 - 1 } } :=
  exit_on_zero_polls_amended TaskStats.initial 5 rfl

/-- Claim C3: on an outermost `Exit` whose timestamp precedes
`last_poll_started` (`Enter` at 500, `Exit` at 300) the aggregator panics —
`at.duration_since(last_poll_started).unwrap()` is not saturating — while the
nanosecond conversion for the histogram does clamp to `u64::MAX`
(`Enter` at 0, `Exit` at `2 ^ 64 + 5` records `2 ^ 64 - 1`). -/
theorem exit_duration_panics_but_nanos_clamp :
    reduce [Event.spawn 1 10 100 0, Event.enter 1 500, Event.exit 1 300]
        (Aggregator.empty 60) = none
    ∧ ((reduce [Event.spawn 1 10 100 0, Event.enter 1 0, Event.exit 1 (2 ^ 64 + 5)]
          (Aggregator.empty 60)).bind
        fun s => (s.task_stats.get 1).map fun v => v.poll_times_histogram)
      = some [U64 - 1] :=
  ⟨rfl, rfl⟩

/-- Claim C3, amended: the outermost-`Exit` elapsed time is computed by
`at.duration_since(last_poll_started).unwrap()` — it panics when
`at < last_poll_started` rather than yielding zero; when
`at ≥ last_poll_started` it is the exact difference, and the nanosecond
conversion for the histogram clamps to `u64::MAX`. -/
theorem exit_elapsed_unwrap_behavior (v : TaskStats) (t lps : Nat)
    (hcp : v.poll_stats.current_polls = 1)
    (hlps : v.poll_stats.last_poll_started = some lps) :
    TaskStats.applyExit t v =
      if lps ≤ t then
        some { v with
          poll_stats := { v.poll_stats with
            current_polls := 0, last_poll_ended := some t
            busy_time := v.poll_stats.busy_time + (t - lps) }
          poll_times_histogram := v.poll_times_histogram ++ [min (t - lps) (U64 - 1)] }
      else none := by
  unfold TaskStats.applyExit PollStats.applyExitCore
  rw [hcp, hlps]
  have h2 : wsub 1 1 = 0 := by decide
  by_cases h : lps ≤ t <;> simp [h2, h, hlps]

/-- Witness for `exit_elapsed_unwrap_behavior`: `Exit` at `t = 3` after the
outermost poll started at `last_poll_started = 10` panics. -/
theorem exit_elapsed_unwrap_witness :
    TaskStats.applyExit 3 { TaskStats.initial with
      poll_stats := { TaskStats.initial.poll_stats with
        current_polls := 1, last_poll_started := some 10 } } = none :=
  (exit_elapsed_unwrap_behavior _ 3 10 rfl rfl).trans (if_neg (by decide))

/-- Claim C4, counterexample: a successful initial-snapshot delivery does not
clear dirty bits — after `add_instrument_subscription` on a state with one
dirty task-stats row, the all-bits-clear check is still `false`. -/
theorem initial_snapshot_keeps_dirty_bit :
    ((add_instrument_subscription 50 { Aggregator.empty 60 with
        task_stats := ⟨[(1, TaskStats.initial, true)]⟩ }).2.task_stats.data.all
      fun e => !e.2.2) = false :=
  rfl

/-- Claim C4, amended: building the initial snapshot uses the full enumeration
(`as_proto(false)`) and leaves the aggregator state — dirty bits included —
completely unchanged; rows dirtied before the subscription are therefore still
dirty and reappear in the next publish's delta. -/
theorem initial_snapshot_leaves_state_unchanged (now : Nat) (s : Aggregator) :
    (add_instrument_subscription now s).2 = s :=
  rfl

/-- Claim C5, counterexample: `closed_at` is not write-once — after
`Close(1, at=5)` followed by `Close(1, at=9)` the stored value is `9`, not the
original `5`. -/
theorem second_close_overwrites_closed_at :
    ((reduce [Event.spawn 1 10 0 0, Event.close 1 5, Event.close 1 9]
          (Aggregator.empty 60)).bind
        fun s => (s.task_stats.get 1).map fun v => v.closed_at)
      = some (some 9)
    ∧ (some 9 : Option Nat) ≠ some 5 :=
  ⟨rfl, by decide⟩

/-- Claim C5, amended: a `Close` event unconditionally assigns `closed_at` for
a present row, so the field always holds the timestamp of the most recent
`Close`; a later `Close` with a different timestamp overwrites it. -/
theorem close_sets_closed_at_to_event_time (s : Aggregator) (id t : Nat)
    (v : TaskStats) (h : s.task_stats.get id = some v) :
    ((update_state (Event.close id t) s).bind fun s' =>
        (s'.task_stats.get id).map fun w => w.closed_at)
      = some (some t) := by
  show ((s.task_stats.update id fun w => { w with closed_at := some t }).get id).map
      (fun w => w.closed_at) = some (some t)
  rw [IdData.get_update, h]
  rfl

/-- Witness for `close_sets_closed_at_to_event_time` at a concrete state. -/
theorem close_sets_closed_at_witness :
    ((update_state (Event.close 1 9) { Aggregator.empty 60 with
          task_stats := ⟨[(1, TaskStats.initial, true)]⟩ }).bind fun s' =>
        (s'.task_stats.get 1).map fun w => w.closed_at)
      = some (some 9) :=
  close_sets_closed_at_to_event_time _ 1 9 TaskStats.initial rfl

/-- Claim C6: a matched outermost `Enter(t1)`/`Exit(t2)` pair (entered from
re-entrancy depth 0, with producer-monotone timestamps `t1 ≤ t2`) adds exactly
`t2 - t1` to `busy_time` and appends exactly one histogram sample equal to that
delta clamped to `u64::MAX`; and scenario S1 yields `polls = 2`,
`busy_time = 400`, `first_poll = 200`, `last_poll_ended = 900`, histogram
`[300, 100]` and `closed_at = 1000`. -/
theorem outermost_poll_pair_accounting (v : TaskStats) (t1 t2 : Nat)
    (h0 : v.poll_stats.current_polls = 0) (hle : t1 ≤ t2) :
    TaskStats.applyExit t2 { v with poll_stats := v.poll_stats.applyEnter t1 } = some
      { v with
        poll_stats :=
          { current_polls := 0
            polls := v.poll_stats.polls + 1
            first_poll := some (v.poll_stats.first_poll.getD t1)
            last_poll_started := some t1
            last_poll_ended := some t2
            busy_time := v.poll_stats.busy_time + (t2 - t1) }
        poll_times_histogram := v.poll_times_histogram ++ [min (t2 - t1) (U64 - 1)] }
    ∧ ((reduce [Event.metadata 10, Event.spawn 1 10 100 0, Event.enter 1 200,
          Event.exit 1 500, Event.enter 1 800, Event.exit 1 900, Event.close 1 1000]
          (Aggregator.empty 60)).bind fun s => s.task_stats.get 1) = some
      { created_at := some 100, closed_at := some 1000, wakes := 0, waker_clones := 0
        waker_drops := 0, last_wake := none, poll_times_histogram := [300, 100]
        poll_stats := { current_polls := 0, polls := 2, first_poll := some 200
                        last_poll_started := some 800, last_poll_ended := some 900
                        busy_time := 400 } } := by
  refine ⟨?_, rfl⟩
  have h1 : wadd 0 1 = 1 := by decide
  have h2 : wsub 1 1 = 0 := by decide
  unfold TaskStats.applyExit PollStats.applyExitCore PollStats.applyEnter
  rw [h0]
  simp only [if_pos rfl, h1, h2, hle, if_true]
  cases hfp : v.poll_stats.first_poll <;> simp [hfp, hle]

/-- Witness for `outermost_poll_pair_accounting` at depth 0 with `t1 = 3`,
`t2 = 7`. -/
theorem outermost_poll_pair_witness :
    TaskStats.applyExit 7 { TaskStats.initial with
        poll_stats := TaskStats.initial.poll_stats.applyEnter 3 } = some
      { TaskStats.initial with
        poll_stats :=
          { current_polls := 0, polls := 1, first_poll := some 3
            last_poll_started := some 3, last_poll_ended := some 7, busy_time := 4 }
        poll_times_histogram := [4] } :=
  (outermost_poll_pair_accounting TaskStats.initial 3 7 rfl (by decide)).1

/-- Claim C7: after `publish`, every entity table's set of dirty bits is empty:
the update is built with `as_proto(true)`, whose `since_last_update` iteration
clears every dirty bit in all seven tables. -/
theorem publish_clears_all_dirty_bits (now : Nat) (s : Aggregator) :
    (publish now s).2.tasks.dirtyFree
    ∧ (publish now s).2.task_stats.dirtyFree
    ∧ (publish now s).2.resources.dirtyFree
    ∧ (publish now s).2.resource_stats.dirtyFree
    ∧ (publish now s).2.async_ops.dirtyFree
    ∧ (publish now s).2.async_op_stats.dirtyFree
    ∧ (publish now s).2.resource_ops.dirtyFree :=
  ⟨IdData.dirtyFree_since_last_update _, IdData.dirtyFree_since_last_update _,
   IdData.dirtyFree_since_last_update _, IdData.dirtyFree_since_last_update _,
   IdData.dirtyFree_since_last_update _, IdData.dirtyFree_since_last_update _,
   IdData.dirtyFree_since_last_update _⟩

/-- Claim C8: a `Waker` event on an id present in `task_stats` updates exactly
the claimed fields — `Wake` bumps `wakes` and `waker_drops` and sets
`last_wake`, `WakeByRef` bumps only `wakes` and sets `last_wake`, `Clone` bumps
only `waker_clones`, `Drop` bumps only `waker_drops` — and scenario S2
(spawn, `Clone`, `Clone`, `Wake`, `Drop`) yields `waker_clones = 2`,
`waker_drops = 2`, `wakes = 1`, `last_wake` set. -/
theorem waker_event_counts (s : Aggregator) (id t : Nat) :
    (((update_state (Event.waker id WakeOp.wake t) s).bind fun s' =>
        s'.task_stats.get id)
      = (s.task_stats.get id).map fun v =>
          { v with wakes := v.wakes + 1, last_wake := some t
                   waker_drops := v.waker_drops + 1 })
    ∧ (((update_state (Event.waker id WakeOp.wakeByRef t) s).bind fun s' =>
        s'.task_stats.get id)
      = (s.task_stats.get id).map fun v =>
          { v with wakes := v.wakes + 1, last_wake := some t })
    ∧ (((update_state (Event.waker id WakeOp.clone t) s).bind fun s' =>
        s'.task_stats.get id)
      = (s.task_stats.get id).map fun v =>
          { v with waker_clones := v.waker_clones + 1 })
    ∧ (((update_state (Event.waker id WakeOp.drop t) s).bind fun s' =>
        s'.task_stats.get id)
      = (s.task_stats.get id).map fun v =>
          { v with waker_drops := v.waker_drops + 1 })
    ∧ ((reduce [Event.spawn 1 10 100 0, Event.waker 1 WakeOp.clone 1,
          Event.waker 1 WakeOp.clone 2, Event.waker 1 WakeOp.wake 3,
          Event.waker 1 WakeOp.drop 4] (Aggregator.empty 60)).bind
        fun s' => (s'.task_stats.get 1).map fun v =>
          (v.waker_clones, v.waker_drops, v.wakes, v.last_wake))
      = some (2, 2, 1, some 3) :=
  ⟨IdData.get_update s.task_stats id _, IdData.get_update s.task_stats id _,
   IdData.get_update s.task_stats id _, IdData.get_update s.task_stats id _, rfl⟩

/-- Claim C9: `AttrValue::update` with a mismatched value kind (`Text` update
on a `Numeric` attribute or vice versa) panics — through the reducer this
aborts the aggregator, as in the concrete mismatch run — while updates of
matching kind always produce a value. -/
theorem attr_update_kind_mismatch_aborts :
    (∀ (s : String) (v : Nat) (op : AttributeUpdateOp) (un : String),
        AttrValue.update (AttrValue.text s) (AttributeUpdateValue.numeric v op un) = none)
    ∧ (∀ (v : Nat) (u s : String),
        AttrValue.update (AttrValue.numeric v u) (AttributeUpdateValue.text s) = none)
    ∧ (∀ (a b : String),
        (AttrValue.update (AttrValue.text a) (AttributeUpdateValue.text b)).isSome = true)
    ∧ (∀ (v : Nat) (u : String) (x : Nat) (op : AttributeUpdateOp) (un : String),
        (AttrValue.update (AttrValue.numeric v u)
          (AttributeUpdateValue.numeric x op un)).isSome = true)
    ∧ reduce [Event.resource 7 20 "k" "ct" 0,
        Event.resourceOp 21 1 7 "poll_ready" (OpType.stateUpdate
          [⟨"queued", AttributeUpdateValue.numeric 3 AttributeUpdateOp.add "msg"⟩]),
        Event.resourceOp 22 2 7 "poll_ready" (OpType.stateUpdate
          [⟨"queued", AttributeUpdateValue.text "oops"⟩])]
        (Aggregator.empty 60) = none :=
  ⟨fun _ _ _ _ => rfl, fun _ _ _ => rfl, fun _ _ => rfl, fun _ _ _ _ _ => rfl, rfl⟩

/-- Claim C10: the retention pass never drops a stats row whose `closed_at` is
unset, nor the identity row backing it, and `cleanup_closed` never touches
`resource_ops` — regardless of `now`, the retention duration and the watcher
set. -/
theorem retention_keeps_unclosed_rows {T R : Type} [Closable R]
    (now retention : Nat) (hw : Bool) (ents : IdData T) (stats : IdData R) :
    (∀ e ∈ stats.data, Closable.closedAt e.2.1 = none →
        e ∈ (drop_closed now ents stats retention hw).2.data)
    ∧ (∀ e ∈ ents.data, ∀ r ∈ stats.data, r.1 = e.1 → Closable.closedAt r.2.1 = none →
        e ∈ (drop_closed now ents stats retention hw).1.data)
    ∧ ∀ (s : Aggregator) (now' : Nat) (hw' : Bool),
        (cleanup_closed now' hw' s).resource_ops = s.resource_ops := by
  have hstats : ∀ e ∈ stats.data, Closable.closedAt e.2.1 = none →
      e ∈ (drop_closed_stats now stats retention hw).data := by
    intro e he hnone
    unfold drop_closed_stats
    exact List.mem_filter.mpr ⟨he, by simp [hnone]⟩
  refine ⟨hstats, ?_, fun _ _ _ => rfl⟩
  intro e he r hr hid hnone
  show e ∈ ((ents.data.filter fun e' =>
      (drop_closed_stats now stats retention hw).data.any fun r' => r'.1 == e'.1))
  refine List.mem_filter.mpr ⟨he, ?_⟩
  refine List.any_eq_true.mpr ⟨r, hstats r hr hnone, ?_⟩
  simpa using hid

/-- Witness for `retention_keeps_unclosed_rows`: a task with `closed_at` unset
survives a retention pass with `retention = 0`, watchers present and an
arbitrarily late `now`. -/
theorem retention_keeps_unclosed_witness :
    (1, TaskStats.initial, false) ∈ (drop_closed 1000000
        (⟨[(1, ⟨1, 10, 0⟩, false)]⟩ : IdData Task)
        (⟨[(1, TaskStats.initial, false)]⟩ : IdData TaskStats) 0 true).2.data
    ∧ (1, (⟨1, 10, 0⟩ : Task), false) ∈ (drop_closed 1000000
        (⟨[(1, ⟨1, 10, 0⟩, false)]⟩ : IdData Task)
        (⟨[(1, TaskStats.initial, false)]⟩ : IdData TaskStats) 0 true).1.data :=
  ⟨(retention_keeps_unclosed_rows 1000000 0 true _ _).1 _ (List.mem_singleton.mpr rfl) rfl,
   (retention_keeps_unclosed_rows 1000000 0 true _ _).2.1 _ (List.mem_singleton.mpr rfl)
     _ (List.mem_singleton.mpr rfl) rfl rfl⟩

end Agg
